import Mathlib

/-
  Shallow embedding of the GnomeGlobalMenu repository:
  a DBus AppMenu registrar (class DBusRegistrar) plus its logging module.

  The registrar keeps
    - two numeric ownership identifiers, _bus_id and _service_id
      (both 0 in the initial state);
    - a window map, Map<number, { window_id, menu_object_path }>.
  External GLib and Gio effects (bus name ownership handles, timer
  sources, the exported object) are tracked explicitly so that the
  lifecycle methods can be stated as pure state transformers.  Values
  that the environment produces (the handle returned by
  Gio.bus_own_name, the source id returned by
  GLib.timeout_add_seconds, the menu model returned by
  Gio.DBusMenuModel.get) are passed in as parameters.
-/

namespace GnomeGlobalMenu

/-! ## Logging module (logger/log, logger/type_enum) -/

/-- The five log levels of log_types (logger/type_enum). -/
inductive LogType where
  | INFO
  | WARN
  | ERROR
  | DEBUG
  | THROW
deriving Repr, DecidableEq

/-- String rendering of a log type, as it appears in the header. -/
def LogType.render : LogType → String
  | .INFO => "INFO"
  | .WARN => "WARN"
  | .ERROR => "ERROR"
  | .DEBUG => "DEBUG"
  | .THROW => "THROW"

/-- The components of the JS Date that log_header reads:
getHours, getMinutes, getSeconds, getMilliseconds. -/
structure JSDate where
  hours : Nat
  minutes : Nat
  seconds : Nat
  milliseconds : Nat
deriving Repr, DecidableEq

/-- log_header: the string [TYPE: h:m:s:ms] built from the current date. -/
def log_header (t : LogType) (d : JSDate) : String :=
  "[" ++ t.render ++ ": " ++ toString d.hours ++ ":" ++ toString d.minutes
      ++ ":" ++ toString d.seconds ++ ":" ++ toString d.milliseconds ++ "]"

/-- A JS value passed to log as an argument.  An object is represented
together with the string JSON.stringify produces for it (JSON.stringify
is a host builtin, external to this repository); every other value is
represented by the string that string coercion or join produces. -/
inductive JSVal where
  | vstr (s : String)
  | vnum (n : Int)
  | vobj (stringified : String)
deriving Repr, DecidableEq

/-- One argument as it is rendered inside log:
objects through JSON.stringify, everything else as itself. -/
def renderArg : JSVal → String
  | .vstr s => s
  | .vnum n => toString n
  | .vobj j => j

/-- The concat value of log: arguments rendered and joined by a space. -/
def concat_args (args : List JSVal) : String :=
  String.intercalate " " (args.map renderArg)

/-- The observable outcome of one log call: either a console.log of
(header, concat), or a raised Error carrying a message. -/
inductive LogResult where
  | printed (header : String) (concat : String)
  | raised (msg : String)
deriving Repr, DecidableEq

/-- The log function (logger/log).  INFO, WARN, ERROR and DEBUG
print header and concat; THROW raises an Error whose message is
the header, a space, and the concatenated arguments. -/
def log (t : LogType) (d : JSDate) (args : List JSVal) : LogResult :=
  let header := log_header t d
  let concat := concat_args args
  match t with
  | .INFO => .printed header concat
  | .WARN => .printed header concat
  | .ERROR => .printed header concat
  | .DEBUG => .printed header concat
  | .THROW => .raised (header ++ " " ++ concat)

/-! ## The window map -/

/-- The value type stored in _window_map. -/
structure WindowRegistration where
  window_id : Nat
  menu_object_path : String
deriving Repr, DecidableEq

/-- The JS Map<number, WindowRegistration>, modelled as an association
list in insertion order; a well formed JS Map never holds two entries
with the same key. -/
abbrev WindowMap := List (Nat × WindowRegistration)

/-- Map.prototype.has. -/
def WindowMap.hasKey (m : WindowMap) (k : Nat) : Bool :=
  m.any (fun e => e.1 == k)

/-- Map.prototype.get. -/
def WindowMap.getKey (m : WindowMap) (k : Nat) : Option WindowRegistration :=
  (m.find? (fun e => e.1 == k)).map Prod.snd

/-- Map.prototype.delete: removes the entry stored under the key.
On a well formed map (unique keys) this is removal of that one entry. -/
def WindowMap.deleteKey (m : WindowMap) (k : Nat) : WindowMap :=
  m.filter (fun e => e.1 != k)

/-- Map.prototype.keys, as Array.from(map.keys()) produces it. -/
def WindowMap.keysOf (m : WindowMap) : List Nat :=
  m.map Prod.fst

/-! ## Registrar state -/

/-- The mutable state of the DBusRegistrar singleton, together with the
external resources its GLib and Gio calls act on: the set of bus name
ownership handles currently held, the set of scheduled timer sources,
and whether the DBus object is currently exported. -/
structure RegistrarState where
  bus_id : Nat
  service_id : Nat
  window_map : WindowMap
  owned_names : List Nat
  active_sources : List Nat
  exported : Bool
deriving Repr, DecidableEq

/-- The state right after construction: both identifiers are 0 and the
window map is empty, nothing owned, nothing scheduled, nothing exported. -/
def initial_state : RegistrarState :=
  { bus_id := 0
    service_id := 0
    window_map := []
    owned_names := []
    active_sources := []
    exported := false }

/-- is_acquired: bus_id and service_id are both strictly positive. -/
def is_acquired (st : RegistrarState) : Bool :=
  decide (0 < st.bus_id) && decide (0 < st.service_id)

/-- release_bus: removes the timer source if service_id is positive,
unowns the bus name if bus_id is positive, and unexports the object
(the _dbus handle always exists).  Note that it does not write to
bus_id or service_id: the identifiers keep their old values. -/
def release_bus (st : RegistrarState) : RegistrarState :=
  let st1 := if 0 < st.service_id then
      { st with active_sources := st.active_sources.erase st.service_id }
    else st
  let st2 := if 0 < st1.bus_id then
      { st1 with owned_names := st1.owned_names.erase st1.bus_id }
    else st1
  { st2 with exported := false }

/-- acquire_bus: first calls release_bus, then requests ownership of
the well known name; Gio.bus_own_name returns the owner handle, which
is stored into bus_id.  The handle value is supplied by the
environment as new_bus_id. -/
def acquire_bus (st : RegistrarState) (new_bus_id : Nat) : RegistrarState :=
  let st1 := release_bus st
  { st1 with bus_id := new_bus_id, owned_names := new_bus_id :: st1.owned_names }

/-- on_bus_acquired callback: exports the object at the object path. -/
def on_bus_acquired (st : RegistrarState) : RegistrarState :=
  { st with exported := true }

/-- on_name_acquired callback: schedules the heartbeat timer;
GLib.timeout_add_seconds returns the source id, supplied by the
environment as timer_id, which is stored into service_id. -/
def on_name_acquired (st : RegistrarState) (timer_id : Nat) : RegistrarState :=
  { st with service_id := timer_id, active_sources := timer_id :: st.active_sources }

/-- on_name_lost callback: removes the timer source if scheduled and
resets service_id to 0. -/
def on_name_lost (st : RegistrarState) : RegistrarState :=
  let st1 := if 0 < st.service_id then
      { st with active_sources := st.active_sources.erase st.service_id }
    else st
  { st1 with service_id := 0 }

/-! ## Method surface -/

/-- A log event sent to the Logger collaborator: level and message. -/
abbrev LogEvent := LogType × String

/-- A signal emitted on the bus: name and string arguments. -/
structure DBusSignal where
  signal_name : String
  args : List String
deriving Repr, DecidableEq

/-- The menu model object Gio.DBusMenuModel.get returns for the given
path, supplied by the environment: its string coercion and its items
(each item as the string its attribute value coerces to). -/
structure DBusMenuModel where
  display : String
  items : List String
deriving Repr, DecidableEq

/-- dbus_log: returns immediately when not acquired, otherwise emits
the Log signal with the three strings.  The registrar state is never
written. -/
def dbus_log (st : RegistrarState) (type_s time_s message : String) :
    RegistrarState × Option DBusSignal :=
  if is_acquired st then
    (st, some { signal_name := "Log", args := [type_s, time_s, message] })
  else
    (st, none)

/-- The RegisterWindow method.  It logs the window id and the path,
warns if the window id is already in the map, resolves the menu model
for the path (mm, supplied by the environment) and logs its item
count and items.  It never writes to the window map or to any other
field: the returned state is the input state. -/
def RegisterWindow (st : RegistrarState) (window_id : Nat)
    (menu_object_path : String) (mm : DBusMenuModel) :
    RegistrarState × List LogEvent :=
  let logs1 : List LogEvent :=
    [(LogType.INFO, "Registering window: " ++ toString window_id),
     (LogType.INFO, "Menu Object Path: " ++ menu_object_path)]
  let logs2 : List LogEvent :=
    if WindowMap.hasKey st.window_map window_id then
      [(LogType.WARN, "Window already registered")]
    else []
  let logs3 : List LogEvent :=
    [(LogType.INFO, "Menu Model: " ++ mm.display),
     (LogType.INFO, "Menu Model: " ++ toString mm.items.length)]
  let logs4 : List LogEvent :=
    mm.items.map (fun it => (LogType.INFO, "Item: " ++ it))
  (st, logs1 ++ logs2 ++ logs3 ++ logs4)

/-- The UnregisterWindow method: logs, and if the window id is not in
the map warns and returns with the map untouched; otherwise deletes
the entry stored under the window id. -/
def UnregisterWindow (st : RegistrarState) (window_id : Nat) :
    RegistrarState × List LogEvent :=
  let logs1 : List LogEvent :=
    [(LogType.INFO, "Unregistering window: " ++ toString window_id)]
  if ¬ WindowMap.hasKey st.window_map window_id then
    (st, logs1 ++ [(LogType.WARN, "Window not registered")])
  else
    ({ st with window_map := WindowMap.deleteKey st.window_map window_id }, logs1)

/-- The GetMenuForWindow method: logs and returns the literal record
with service and menuObjectPath both the empty string, ignoring the
map. -/
def GetMenuForWindow (st : RegistrarState) (window_id : Nat) :
    RegistrarState × (String × String) × List LogEvent :=
  (st, ("", ""),
   [(LogType.INFO, "Getting menu for window: " ++ toString window_id)])

/-- The GetWindowList method: logs one line per entry (the value part
prints through JS string coercion of the record object) and returns
the list of keys of the map. -/
def GetWindowList (st : RegistrarState) :
    RegistrarState × List Nat × List LogEvent :=
  (st, WindowMap.keysOf st.window_map,
   (LogType.INFO, "Getting window list") ::
     st.window_map.map (fun e =>
       (LogType.INFO, "Window: " ++ toString e.1 ++ " - [object Object]")))

/-! ## Map lemmas -/

/-- Looking up a key different from the deleted one is unchanged. -/
theorem find_deleteKey_ne (m : WindowMap) (k id : Nat) (hk : k ≠ id) :
    List.find? (fun e => e.1 == k) (WindowMap.deleteKey m id) =
      List.find? (fun e => e.1 == k) m := by
  induction m with
  | nil => rfl
  | cons e t ih =>
    by_cases he : e.1 = id
    · have h1 : (e.1 != id) = false := by simp [he]
      have h2 : (e.1 == k) = false := by
        simp only [beq_eq_false_iff_ne, ne_eq]
        intro hek
        exact hk (hek ▸ he)
      simp only [WindowMap.deleteKey, List.filter_cons, h1, List.find?_cons, h2,
        Bool.false_eq_true, if_false, cond_false]
      exact ih
    · have h1 : (e.1 != id) = true := by simp [he]
      by_cases hek : e.1 = k
      · have h2 : (e.1 == k) = true := by simp [hek]
        simp [WindowMap.deleteKey, List.filter_cons, h1, List.find?_cons, h2]
      · have h2 : (e.1 == k) = false := by simp [hek]
        simp only [WindowMap.deleteKey, List.filter_cons, h1, if_true,
          List.find?_cons, h2, cond_false]
        exact ih

/-- After deleting a key it is no longer present. -/
theorem hasKey_deleteKey (m : WindowMap) (id : Nat) :
    WindowMap.hasKey (WindowMap.deleteKey m id) id = false := by
  simp only [WindowMap.hasKey, WindowMap.deleteKey]
  rw [Bool.eq_false_iff]
  intro h
  rcases List.any_eq_true.mp h with ⟨e, he, hp⟩
  rcases List.mem_filter.mp he with ⟨_, hne⟩
  exact bne_iff_ne.mp hne (beq_iff_eq.mp hp)

/-! ## Claims -/

/-- C1: the claim that after RegisterWindow(window_id, path) the window_id
appears exactly once in GetWindowList() fails on the code: the body of
RegisterWindow never inserts into the window map.  Evaluated at
window_id 42 and path /menu/42 on the freshly constructed empty
registry, GetWindowList() returns the empty list, so 42 appears zero
times rather than exactly once. -/
theorem C1_register_window_never_inserts :
    ((GetWindowList (RegisterWindow initial_state 42 "/menu/42"
        { display := "[object]", items := [] }).1).2.1 = []) ∧
    (((GetWindowList (RegisterWindow initial_state 42 "/menu/42"
        { display := "[object]", items := [] }).1).2.1.count 42) = 0) :=
  ⟨rfl, rfl⟩

/-- C2: the claim that re-registering an already present window_id
overwrites the stored path with the new one fails on the code:
RegisterWindow never writes to the window map.  Evaluated at a state
whose map holds 7 with path /a, RegisterWindow(7, /b) leaves the
stored path at /a, not /b. -/
theorem C2_register_window_no_overwrite :
    (WindowMap.getKey
      (RegisterWindow
        { initial_state with
            window_map := [(7, { window_id := 7, menu_object_path := "/a" })] }
        7 "/b" { display := "[object]", items := [] }).1.window_map 7 =
      some { window_id := 7, menu_object_path := "/a" }) ∧
    ¬ (WindowMap.getKey
      (RegisterWindow
        { initial_state with
            window_map := [(7, { window_id := 7, menu_object_path := "/a" })] }
        7 "/b" { display := "[object]", items := [] }).1.window_map 7 =
      some { window_id := 7, menu_object_path := "/b" }) := by
  constructor
  · rfl
  · decide

/-- C3: GetMenuForWindow returns the pair of empty strings for every
state and every window_id, registered or not. -/
theorem C3_get_menu_for_window_always_empty
    (st : RegistrarState) (window_id : Nat) :
    (GetMenuForWindow st window_id).2.1 = ("", "") := rfl

/-- C4: the claim that is_acquired() is false after release() fails on
the code: release_bus removes the timer source and unowns the name but
never resets bus_id or service_id to 0, so after a full acquisition
(bus handle 3, timer id 7) followed by release_bus, is_acquired still
returns true. -/
theorem C4_is_acquired_true_after_release :
    is_acquired (release_bus (on_name_acquired (on_bus_acquired
      (acquire_bus initial_state 3)) 7)) = true := rfl

/-- C5: the claim that after release() all ownership identifiers are at
the zero sentinel fails on the code: release_bus relinquishes the
external resources but leaves bus_id and service_id untouched.
Evaluated after a full acquisition (bus handle 3, timer id 7) and
release_bus, both identifiers are still nonzero, though the name is
unowned, the source removed and the object unexported. -/
theorem C5_release_keeps_identifiers :
    ((release_bus (on_name_acquired (on_bus_acquired
        (acquire_bus initial_state 3)) 7)).bus_id = 3) ∧
    ((release_bus (on_name_acquired (on_bus_acquired
        (acquire_bus initial_state 3)) 7)).service_id = 7) ∧
    ((release_bus (on_name_acquired (on_bus_acquired
        (acquire_bus initial_state 3)) 7)).owned_names = []) ∧
    ((release_bus (on_name_acquired (on_bus_acquired
        (acquire_bus initial_state 3)) 7)).active_sources = []) ∧
    ((release_bus (on_name_acquired (on_bus_acquired
        (acquire_bus initial_state 3)) 7)).exported = false) :=
  ⟨rfl, rfl, rfl, rfl, rfl⟩

/-- C6: for a window_id present in the map, UnregisterWindow removes
exactly that entry: afterwards the id is absent, every lookup at a
different key is unchanged, and every other state field is unchanged. -/
theorem C6_unregister_removes_exactly_one (st : RegistrarState) (id : Nat)
    (h : WindowMap.hasKey st.window_map id = true) :
    WindowMap.hasKey (UnregisterWindow st id).1.window_map id = false ∧
    (∀ k, k ≠ id →
      WindowMap.getKey (UnregisterWindow st id).1.window_map k =
        WindowMap.getKey st.window_map k) ∧
    (UnregisterWindow st id).1.bus_id = st.bus_id ∧
    (UnregisterWindow st id).1.service_id = st.service_id ∧
    (UnregisterWindow st id).1.owned_names = st.owned_names ∧
    (UnregisterWindow st id).1.active_sources = st.active_sources ∧
    (UnregisterWindow st id).1.exported = st.exported := by
  unfold UnregisterWindow
  simp only [h, not_true_eq_false, if_false]
  refine ⟨hasKey_deleteKey st.window_map id, ?_,
    True.intro, True.intro, True.intro, True.intro, True.intro⟩
  intro k hk
  unfold WindowMap.getKey
  rw [find_deleteKey_ne st.window_map k id hk]

/-- C6 witness: on a map holding ids 1 and 2, unregistering 1 satisfies
the hypothesis and the conclusion. -/
theorem C6_unregister_removes_exactly_one_witness :
    WindowMap.hasKey
      ({ initial_state with window_map :=
          [(1, { window_id := 1, menu_object_path := "/a" }),
           (2, { window_id := 2, menu_object_path := "/b" })] } :
        RegistrarState).window_map 1 = true ∧
    (WindowMap.hasKey (UnregisterWindow
      { initial_state with window_map :=
          [(1, { window_id := 1, menu_object_path := "/a" }),
           (2, { window_id := 2, menu_object_path := "/b" })] } 1).1.window_map
        1 = false ∧
    (∀ k, k ≠ 1 →
      WindowMap.getKey (UnregisterWindow
        { initial_state with window_map :=
            [(1, { window_id := 1, menu_object_path := "/a" }),
             (2, { window_id := 2, menu_object_path := "/b" })] } 1).1.window_map
          k =
        WindowMap.getKey
          ({ initial_state with window_map :=
              [(1, { window_id := 1, menu_object_path := "/a" }),
               (2, { window_id := 2, menu_object_path := "/b" })] } :
            RegistrarState).window_map k) ∧
    (UnregisterWindow
      { initial_state with window_map :=
          [(1, { window_id := 1, menu_object_path := "/a" }),
           (2, { window_id := 2, menu_object_path := "/b" })] } 1).1.bus_id = 0 ∧
    (UnregisterWindow
      { initial_state with window_map :=
          [(1, { window_id := 1, menu_object_path := "/a" }),
           (2, { window_id := 2, menu_object_path := "/b" })] } 1).1.service_id
      = 0 ∧
    (UnregisterWindow
      { initial_state with window_map :=
          [(1, { window_id := 1, menu_object_path := "/a" }),
           (2, { window_id := 2, menu_object_path := "/b" })] } 1).1.owned_names
      = [] ∧
    (UnregisterWindow
      { initial_state with window_map :=
          [(1, { window_id := 1, menu_object_path := "/a" }),
           (2, { window_id := 2, menu_object_path := "/b" })] } 1).1.active_sources
      = [] ∧
    (UnregisterWindow
      { initial_state with window_map :=
          [(1, { window_id := 1, menu_object_path := "/a" }),
           (2, { window_id := 2, menu_object_path := "/b" })] } 1).1.exported
      = false) :=
  ⟨rfl, C6_unregister_removes_exactly_one
    { initial_state with window_map :=
        [(1, { window_id := 1, menu_object_path := "/a" }),
         (2, { window_id := 2, menu_object_path := "/b" })] } 1 rfl⟩

/-- C7: for a window_id absent from the map, UnregisterWindow leaves
the whole state unchanged, logs the warning about the window not being
registered, and raises nothing: every log event it produces is below
the THROW level. -/
theorem C7_unregister_missing_is_noop (st : RegistrarState) (id : Nat)
    (h : WindowMap.hasKey st.window_map id = false) :
    (UnregisterWindow st id).1 = st ∧
    (LogType.WARN, "Window not registered") ∈ (UnregisterWindow st id).2 ∧
    ∀ e ∈ (UnregisterWindow st id).2, e.1 ≠ LogType.THROW := by
  unfold UnregisterWindow
  simp only [h, Bool.false_eq_true, not_false_eq_true, if_true]
  refine ⟨True.intro, ?_, ?_⟩
  · simp
  · intro e he
    rcases List.mem_append.mp he with h1 | h2
    · have : e = (LogType.INFO, "Unregistering window: " ++ toString id) := by
        simpa using h1
      rw [this]
      intro hc
      exact LogType.noConfusion hc
    · have : e = (LogType.WARN, "Window not registered") := by simpa using h2
      rw [this]
      decide

/-- C7 witness: unregistering id 5 on the empty initial registry. -/
theorem C7_unregister_missing_is_noop_witness :
    WindowMap.hasKey initial_state.window_map 5 = false ∧
    ((UnregisterWindow initial_state 5).1 = initial_state ∧
    (LogType.WARN, "Window not registered") ∈ (UnregisterWindow initial_state 5).2 ∧
    ∀ e ∈ (UnregisterWindow initial_state 5).2, e.1 ≠ LogType.THROW) :=
  ⟨rfl, C7_unregister_missing_is_noop initial_state 5 rfl⟩

/-- C8: dbus_log never changes the state; the Log signal with the three
strings is emitted exactly when is_acquired is true, and when it is
false nothing is emitted. -/
theorem C8_dbus_log_emits_iff_acquired
    (st : RegistrarState) (type_s time_s message : String) :
    (dbus_log st type_s time_s message).1 = st ∧
    ((dbus_log st type_s time_s message).2 =
        some { signal_name := "Log", args := [type_s, time_s, message] } ↔
      is_acquired st = true) ∧
    (is_acquired st = false → (dbus_log st type_s time_s message).2 = none) := by
  unfold dbus_log
  by_cases h : is_acquired st = true
  · simp [h]
  · simp [h]

/-- C9: a log call at level THROW raises an error whose message is the
formatted header followed by the space-joined rendered arguments,
while a log call at any other level (INFO, WARN, ERROR, DEBUG) prints
and never raises. -/
theorem C9_throw_raises_others_print (d : JSDate) (args : List JSVal)
    (t : LogType) (h : t ≠ LogType.THROW) :
    log LogType.THROW d args =
      LogResult.raised (log_header LogType.THROW d ++ " " ++ concat_args args) ∧
    ∃ hd ct, log t d args = LogResult.printed hd ct := by
  refine ⟨rfl, ?_⟩
  cases t with
  | INFO => exact ⟨_, _, rfl⟩
  | WARN => exact ⟨_, _, rfl⟩
  | ERROR => exact ⟨_, _, rfl⟩
  | DEBUG => exact ⟨_, _, rfl⟩
  | THROW => exact absurd rfl h

/-- C9 witness: at noon with one string argument, INFO prints while
THROW raises with the formatted message. -/
theorem C9_throw_raises_others_print_witness :
    LogType.INFO ≠ LogType.THROW ∧
    (log LogType.THROW ⟨12, 0, 0, 0⟩ [JSVal.vstr "boom"] =
      LogResult.raised (log_header LogType.THROW ⟨12, 0, 0, 0⟩ ++ " " ++
        concat_args [JSVal.vstr "boom"]) ∧
    ∃ hd ct, log LogType.INFO ⟨12, 0, 0, 0⟩ [JSVal.vstr "boom"] =
      LogResult.printed hd ct) :=
  ⟨by decide, C9_throw_raises_others_print ⟨12, 0, 0, 0⟩ [JSVal.vstr "boom"]
    LogType.INFO (by decide)⟩

/-- C10: GetWindowList and GetMenuForWindow are read only: for every
state and window_id the state they return is exactly the input state,
so the window map and both ownership identifiers are unchanged. -/
theorem C10_queries_leave_state_unchanged
    (st : RegistrarState) (window_id : Nat) :
    (GetWindowList st).1 = st ∧ (GetMenuForWindow st window_id).1 = st :=
  ⟨rfl, rfl⟩

end GnomeGlobalMenu
